import Mathlib

/-!
PyDiamond scheduling core — verification development.

Shallow embedding, over exact rational arithmetic, of the parts of
`py_diamond` that the claims are about:

* the fixed-timestep accumulator of `SceneWindow` (`window/scene.py`);
* the scene stack and `_SceneManager.go_to` (`window/scene.py`);
* the main-loop exception dispatch of `SceneWindow.run` (`window/scene.py`);
* the animation tasks and `TransformAnimation` (`graphics/animation.py`);
* the per-transformable instance caches of `AnimationInterpolator` and
  `TransformAnimation` (`graphics/animation.py`).

Python floats are modelled as `ℚ` (the arithmetic in the claims is exact),
Python's `%` on a positive divisor as `pymod` below, and Python dictionaries
as association lists.
-/

namespace PyDiamond

/-! ## Clock: the fixed-timestep accumulator (`SceneWindow`) -/

/-- Source `SceneWindow.refresh` (window/scene.py:633-636): the accumulator gains
`min(real_delta_time / 1000, 2 * Time.fixed_delta())`. `real_delta_time` is
the elapsed-milliseconds value reported by the underlying window and
`fixed_delta` the fixed simulation delta, both taken as parameters. -/
def refresh_accumulator (accumulator real_delta_time fixed_delta : ℚ) : ℚ :=
  accumulator + min (real_delta_time / 1000) (2 * fixed_delta)

/-- Source `SceneWindow._fixed_updates_call` (window/scene.py:638-643):
`while accumulator >= dt: <call every callback>; accumulator -= dt`.
Returns the number of loop iterations (= number of times the callbacks run)
and the final accumulator.  The source loop only terminates for `0 < dt`,
so the guard carries that condition. -/
def fixed_updates_call (dt : ℚ) (accumulator : ℚ) : ℕ × ℚ :=
  if h : 0 < dt ∧ dt ≤ accumulator then
    ((fixed_updates_call dt (accumulator - dt)).1 + 1,
     (fixed_updates_call dt (accumulator - dt)).2)
  else
    (0, accumulator)
termination_by (⌊accumulator / dt⌋).toNat
decreasing_by
  obtain ⟨hdt, hle⟩ := h
  have hq : (accumulator - dt) / dt = accumulator / dt - 1 := by
    rw [sub_div, div_self (ne_of_gt hdt)]
  have h1 : ⌊accumulator / dt - (1 : ℚ)⌋ = ⌊accumulator / dt⌋ - 1 := by
    exact_mod_cast Int.floor_sub_int (accumulator / dt) 1
  have h2 : (1 : ℤ) ≤ ⌊accumulator / dt⌋ := by
    rw [Int.le_floor]
    push_cast
    rw [le_div_iff₀ hdt]
    linarith
  rw [hq, h1]
  omega

/-! ## Scene stack and `_SceneManager.go_to`

`_SceneManager.__all` (window/scene.py:768) holds exactly one `Scene`
instance per concrete scene kind, and `Scene.__new__`
(window/scene.py:204-210) raises on any second instance of the same type;
so a scene instance is identified here with its kind, of type `ℕ`. -/

/-- The `transition` argument of `go_to`: `None`, a plain `SceneTransition`,
or a `ReturningSceneTransition`; the payload stands for the identity of the
transition object. -/
inductive TransitionArg where
  | none
  | normal (id : ℕ)
  | returning (id : ℕ)
deriving DecidableEq, Repr

/-- The `scene_transition` callable stored into the `NewScene` signal:
nothing, `show_new_scene` of transition `id`, or `hide_actual_scene` of
transition `id`. -/
inductive SceneTransitionFn where
  | none
  | showNewScene (id : ℕ)
  | hideActualScene (id : ℕ)
deriving DecidableEq, Repr

/-- The lifecycle hooks a single `go_to` call can invoke (only `awake`;
`on_quit`/`on_quit_before_transition` run later, in the window's transition
handler). -/
inductive Hook where
  | awake (kind : ℕ)
deriving DecidableEq, Repr

/-- The mutable state of `_SceneManager`: the scene stack (front first), the
`__awaken` set (as a duplicate-free list) and the `__returning_transitions`
dict (as an association list, kind ↦ transition id). -/
structure ManagerState where
  stack : List ℕ
  awaken : List ℕ
  returning : List (ℕ × ℕ)
deriving DecidableEq, Repr

/-- Python `set.add`. -/
def setAdd (k : ℕ) (l : List ℕ) : List ℕ :=
  if k ∈ l then l else k :: l

/-- Python dict assignment `d[k] = v`. -/
def assocInsert (k v : ℕ) (l : List (ℕ × ℕ)) : List (ℕ × ℕ) :=
  (k, v) :: l.filter (fun p => p.1 ≠ k)

/-- Python `d.pop(k, None)`: the looked-up value and the dict without `k`. -/
def assocPop (k : ℕ) (l : List (ℕ × ℕ)) : Option ℕ × List (ℕ × ℕ) :=
  (l.lookup k, l.filter (fun p => p.1 ≠ k))

/-- The `while stack[0] is not next_scene` loop of `go_to`
(window/scene.py:866-870): pop scenes from the front until `kind` is the
front; every popped scene other than `actual` (the original front) is
collected into the closing list, in pop order, and every popped scene's
entry is removed from the returning-transitions dict.  Returns (new stack,
closing list, new returning dict).  The source relies on `kind` being in
the stack; on exhaustion the model stops with an empty stack. -/
def popUntil (kind actual : ℕ) : List ℕ → List (ℕ × ℕ) →
    List ℕ × List ℕ × List (ℕ × ℕ)
  | [], returning => ([], [], returning)
  | h :: t, returning =>
    if h = kind then (h :: t, [], returning)
    else
      let r := popUntil kind actual t (assocPop h returning).2
      (r.1, (if h = actual then r.2.1 else h :: r.2.1), r.2.2)

/-- The control-transfer outcome of `go_to`: either the `SameScene` signal
(state unchanged) or the `NewScene` signal with the updated state, the
previous scene, the closing scenes and the chosen transition callable.  In
both cases the list of lifecycle hooks invoked during the call is recorded. -/
inductive GoToResult where
  | sameScene (state : ManagerState) (hooks : List Hook)
  | newScene (state : ManagerState) (previous : Option ℕ) (closing : List ℕ)
      (transition : SceneTransitionFn) (hooks : List Hook)
deriving DecidableEq, Repr

/-- Source `_SceneManager.go_to` (window/scene.py:835-879). -/
def go_to (s : ManagerState) (kind : ℕ) (transition : TransitionArg)
    (remove_actual : Bool) : GoToResult :=
  match s.stack with
  | [] =>
    GoToResult.newScene
      { stack := [kind], awaken := setAdd kind s.awaken, returning := s.returning }
      Option.none [] SceneTransitionFn.none [Hook.awake kind]
  | a :: rest =>
    if a = kind then
      GoToResult.sameScene s []
    else if kind ∉ a :: rest then
      let returning₁ := match transition with
        | TransitionArg.returning tid => assocInsert a tid s.returning
        | _ => s.returning
      let sceneTransition := match transition with
        | TransitionArg.none => SceneTransitionFn.none
        | TransitionArg.normal tid => SceneTransitionFn.showNewScene tid
        | TransitionArg.returning tid => SceneTransitionFn.showNewScene tid
      let stack₂ := if remove_actual then (kind :: a :: rest).erase a else kind :: a :: rest
      GoToResult.newScene
        { stack := stack₂, awaken := setAdd kind s.awaken, returning := returning₁ }
        (some a) [] sceneTransition [Hook.awake kind]
    else
      let p := assocPop kind s.returning
      let q := popUntil kind a (a :: rest) p.2
      let sceneTransition := match p.1, transition with
        | some tid, _ => SceneTransitionFn.hideActualScene tid
        | Option.none, TransitionArg.returning tid => SceneTransitionFn.hideActualScene tid
        | Option.none, TransitionArg.normal tid => SceneTransitionFn.showNewScene tid
        | Option.none, TransitionArg.none => SceneTransitionFn.none
      GoToResult.newScene
        { stack := q.1, awaken := s.awaken, returning := q.2.2 }
        (some a) q.2.1 sceneTransition []

/-- The manager state after a `go_to` call, whichever signal it raised. -/
def GoToResult.state : GoToResult → ManagerState
  | GoToResult.sameScene s _ => s
  | GoToResult.newScene s _ _ _ _ => s

/-- One `go_to` call: target kind, transition argument, `remove_actual`. -/
def GoToOp : Type := ℕ × TransitionArg × Bool

/-- Apply one `go_to` call to the manager state, keeping the resulting
state in either signal case. -/
def apply_go_to (s : ManagerState) (op : GoToOp) : ManagerState :=
  (go_to s op.1 op.2.1 op.2.2).state

/-- The manager state created by `_SceneManager.__init__`: empty stack,
empty awaken set, no returning transitions. -/
def initialManagerState : ManagerState :=
  { stack := [], awaken := [], returning := [] }

/-- A whole sequence of `go_to` calls starting from the fresh manager. -/
def run_go_to_sequence (ops : List GoToOp) : ManagerState :=
  ops.foldl apply_go_to initialManagerState

/-! ## Main-loop exception dispatch (`SceneWindow.run`) -/

/-- How the body of one iteration of the `while is_open()` loop of
`SceneWindow.run` (window/scene.py:560-577) ends: normally, or with one of
the exceptions that can escape `process_events` / `update_scene` /
`render_scene` / `refresh`.  `sceneException` is a
`_SceneManager.SceneException` that is not a `NewScene` (e.g. `SameScene`);
`otherException` is any exception outside the `SceneException` family
(e.g. a `ValueError` raised by a scene's own update or render code). -/
inductive FrameOutcome where
  | ok
  | newScene (previous : Option ℕ)
  | sceneException
  | otherException
deriving DecidableEq, Repr

/-- What the loop does with that outcome. -/
inductive LoopAction where
  | continueLoop (logged : Bool)
  | transitionThenContinue
  | propagate
deriving DecidableEq, Repr

/-- The `try`/`except` dispatch of `SceneWindow.run` (window/scene.py:559-577):
`except _SceneManager.NewScene` runs the scene transition (after re-raising
`TypeError` when the previous scene is `None`, which propagates);
`except _SceneManager.SceneException` prints the exception to stderr and
continues with the next frame; any other exception is not caught and
propagates out of the loop, terminating it. -/
def run_loop_step : FrameOutcome → LoopAction
  | FrameOutcome.ok => LoopAction.continueLoop false
  | FrameOutcome.newScene previous =>
    if previous = Option.none then LoopAction.propagate else LoopAction.transitionThenContinue
  | FrameOutcome.sceneException => LoopAction.continueLoop true
  | FrameOutcome.otherException => LoopAction.propagate

/-! ## `_TransformState` interpolation (`graphics/animation.py`) -/

/-- Python's `%` operator on a positive divisor: `x % y = x - y * ⌊x / y⌋`,
the representative of `x` modulo `y` in `[0, y)`. -/
def pymod (x y : ℚ) : ℚ := x - y * ⌊x / y⌋

/-- The displacement applied by one rotation-interpolation step: the
shortest signed angle `((end - start) + 180) % 360 - 180` scaled by
`alpha` (`_TransformState.angle_interpolation`, animation.py:340-343). -/
def angle_interpolation_delta (startAngle endAngle alpha : ℚ) : ℚ :=
  (pymod ((endAngle - startAngle) + 180) 360 - 180) * alpha

/-- Source `_TransformState.angle_interpolation` (animation.py:340-343):
`(start + shortest_angle * alpha) % 360`. -/
def angle_interpolation (startAngle endAngle alpha : ℚ) : ℚ :=
  pymod (startAngle + angle_interpolation_delta startAngle endAngle alpha) 360

/-- Source `_TransformState.linear_interpolation` (animation.py:345-347). -/
def linear_interpolation (startValue endValue alpha : ℚ) : ℚ :=
  startValue * (1 - alpha) + endValue * alpha

/-- Modelled from the spec: `Vector2.lerp` (the `math` module's `Vector2` is
not under src/); §4.4 specifies "linear interpolation for scale and
position", so `lerp a b alpha = a + (b - a) * alpha`, componentwise. -/
def lerp (a b : ℚ × ℚ) (alpha : ℚ) : ℚ × ℚ :=
  (a.1 + (b.1 - a.1) * alpha, a.2 + (b.2 - a.2) * alpha)

/-- Source `_TransformState` (animation.py:317-322): snapshot of angle, scale,
center and opaque extra data (the data payload is irrelevant to
interpolation, which passes `None` for it; it is named by `ℕ` here). -/
structure TransformState where
  angle : ℚ
  scale : ℚ
  center : ℚ × ℚ
  data : Option ℕ
deriving DecidableEq, Repr

/-- Source `_TransformState.interpolate` (animation.py:332-338): the state written
onto the transformable — interpolated angle, scale and center, with no
frozen extra data. -/
def TransformState.interpolate (self other : TransformState) (alpha : ℚ) :
    TransformState :=
  { angle := angle_interpolation self.angle other.angle alpha
    scale := linear_interpolation self.scale other.scale alpha
    center := lerp self.center other.center alpha
    data := Option.none }

/-! ## Animation tasks (`graphics/animation.py`) -/

/-- The `_AbstractAnimationClass` per-instance fields
(animation.py:355-368): `__animation_started` and `__speed`.  The `speed`
property multiplies `__speed` by `Time.fixed_delta()`, which is passed
explicitly as `dt` wherever it is used. -/
structure AnimBase where
  animationStarted : Bool
  speed : ℚ
deriving DecidableEq, Repr

/-- Source `_AbstractAnimationClass.started` (animation.py:370-371):
`self.__animation_started and self.__speed > 0`. -/
def AnimBase.started (b : AnimBase) : Bool :=
  b.animationStarted && decide (0 < b.speed)

/-- The base-class part of `_AbstractAnimationClass.stop`
(animation.py:373-376): `__animation_started = False; __speed = 0`; the
subsequent `default()` call is subclass-specific. -/
def AnimBase.stopBase (_ : AnimBase) : AnimBase :=
  { animationStarted := false, speed := 0 }

/-- Source `_AnimationRotation` (animation.py:525-557): target `__angle`
(`abs(angle)`), `__orientation`, progress `__actual_angle`. -/
structure AnimationRotation where
  base : AnimBase
  angle : ℚ
  orientation : ℤ
  actualAngle : ℚ
deriving DecidableEq, Repr

/-- Source `_AnimationRotation.__init__` (animation.py:529-538):
`__angle = abs(angle)`;
`__orientation = int(angle // abs(angle)) if angle != 0 and speed > 0 else 0`
(so `1` for positive, `-1` for negative requested angle);
`__actual_angle = 0`. -/
def AnimationRotation.init (angle speed : ℚ) : AnimationRotation :=
  { base := { animationStarted := true, speed := speed }
    angle := |angle|
    orientation := if angle ≠ 0 ∧ 0 < speed then (if 0 < angle then 1 else -1) else 0
    actualAngle := 0 }

/-- Source `_AnimationRotation.started` (animation.py:540-541). -/
def AnimationRotation.started (r : AnimationRotation) : Bool :=
  r.base.started && decide (r.angle ≠ 0)

/-- Source `_AnimationRotation.default` (animation.py:554-557). -/
def AnimationRotation.default (r : AnimationRotation) : AnimationRotation :=
  if r.angle ≠ 0 then { r with actualAngle := r.angle, angle := 0 } else r

/-- Source `_AbstractAnimationClass.stop` for `_AnimationRotation`: clear the
started flag and the speed, then `default()`. -/
def AnimationRotation.stop (r : AnimationRotation) : AnimationRotation :=
  AnimationRotation.default { r with base := r.base.stopBase }

/-- Source `_AnimationRotation.fixed_update` (animation.py:543-552).  Returns the
new task state and the angle passed to `transformable.rotate` on this tick
(`0` when the task stops instead of rotating): this is the task's
contribution to the accumulated rotation. -/
def AnimationRotation.fixedUpdate (dt : ℚ) (r : AnimationRotation) :
    AnimationRotation × ℚ :=
  let speed := r.base.speed * dt
  let offset := min (r.angle - r.actualAngle) speed * (r.orientation : ℚ)
  if offset = 0 then (r.stop, 0)
  else ({ r with actualAngle := r.actualAngle + |offset| }, offset)

/-- A `TransformAnimation` whose only populated slot is `"rotate"`, holding
an `_AnimationRotation` — exactly what `smooth_rotation`
(animation.py:186-193) installs; the `scale`, `rotate_point` and `move`
slots stay empty in the C5 scenario, so `__iter_animations`
(animation.py:310-314) yields just this task.  `wait` is `__wait` and
`onStop` records whether an `__on_stop` callback is registered. -/
structure RotationOnlyAnimation where
  rotateTask : Option AnimationRotation
  wait : Bool
  onStop : Bool
deriving DecidableEq, Repr

/-- Source `TransformAnimation.has_animation_started` (animation.py:271-272) for
this slot population. -/
def RotationOnlyAnimation.hasAnimationStarted (ta : RotationOnlyAnimation) : Bool :=
  match ta.rotateTask with
  | some r => r.started
  | Option.none => false

/-- Source `TransformAnimation.started` (animation.py:274-275). -/
def RotationOnlyAnimation.started (ta : RotationOnlyAnimation) : Bool :=
  !ta.wait && ta.hasAnimationStarted

/-- Source `TransformAnimation.fixed_update` (animation.py:250-264) for this slot
population.  Returns the new animation-set state, the rotation applied to
the transformable this tick, and the number of times the `on_stop` callback
fired during the call (0 or 1).  The `__interpolator.fixed_update()` context
only snapshots transform state and changes none of the tracked quantities;
when no task remains started the set clears its task dict, re-enters the
waiting state, and fires the registered callback once, dropping it. -/
def RotationOnlyAnimation.fixedUpdate (dt : ℚ) (ta : RotationOnlyAnimation) :
    RotationOnlyAnimation × ℚ × ℕ :=
  if ta.started then
    let step : Option AnimationRotation × ℚ :=
      match ta.rotateTask with
      | some r =>
        if r.started then
          ((r.fixedUpdate dt).1, (r.fixedUpdate dt).2)
        else (some r.default, 0)
      | Option.none => (Option.none, 0)
    let ta₁ : RotationOnlyAnimation := { ta with rotateTask := step.1 }
    if ta₁.hasAnimationStarted then (ta₁, step.2, 0)
    else ({ rotateTask := Option.none, wait := true, onStop := false }, step.2,
      if ta.onStop then 1 else 0)
  else (ta, 0, 0)

/-- Iterate `n` fixed ticks of the animation set, accumulating the total
rotation applied to the transformable and the number of `on_stop` firings. -/
def runTicks (dt : ℚ) : ℕ → RotationOnlyAnimation → RotationOnlyAnimation × ℚ × ℕ
  | 0, ta => (ta, 0, 0)
  | n + 1, ta =>
    let s := ta.fixedUpdate dt
    let r := runTicks dt n s.1
    (r.1, s.2.1 + r.2.1, s.2.2 + r.2.2)

/-- The C5 scenario: `smooth_rotation(90, speed=180)` followed by
`start()`, with an `on_stop` callback registered. -/
def c5_animation : RotationOnlyAnimation :=
  { rotateTask := some (AnimationRotation.init 90 180)
    wait := false
    onStop := true }

/-- The rotation task of the C5 scenario after `k` productive ticks:
target 90°, speed 180°/s, progress `3 * k` degrees. -/
def c5_taskAt (k : ℕ) : AnimationRotation :=
  { base := { animationStarted := true, speed := 180 }
    angle := 90
    orientation := 1
    actualAngle := 3 * k }

/-! ## Tasks with non-positive speed (C6) -/

/-- One constructor per concrete `_Animation*` task class of
`graphics/animation.py`, carrying the base fields plus exactly the extra
per-class state its `started()` override consults:
`_AnimationSetPosition` the emptiness of `__position`
(animation.py:403-404), `_AnimationMove` / `_AnimationInfiniteMove` the
squared length of `__vector` (animation.py:434-435, 467-468),
`_AnimationRotation` / `_AnimationRotationAroundPoint` the target `__angle`
(animation.py:540-541, 610-611), `_AnimationSizeGrowth` the target
`__value` (animation.py:723-724); `_AnimationSetRotation`,
`_AnimationInfiniteRotate`, `_AnimationInfiniteRotateAroundPoint` and
`_AnimationSetSize` do not override `started`. -/
inductive AnimTask where
  | setPosition (base : AnimBase) (positionNonempty : Bool)
  | move (base : AnimBase) (vectorLengthSq : ℚ)
  | infiniteMove (base : AnimBase) (vectorLengthSq : ℚ)
  | setRotation (base : AnimBase)
  | rotation (base : AnimBase) (angle : ℚ)
  | infiniteRotate (base : AnimBase)
  | rotationAroundPoint (base : AnimBase) (angle : ℚ)
  | infiniteRotateAroundPoint (base : AnimBase)
  | setSize (base : AnimBase)
  | sizeGrowth (base : AnimBase) (value : ℚ)
deriving DecidableEq, Repr

/-- The `_AbstractAnimationClass` fields of any task. -/
def AnimTask.getBase : AnimTask → AnimBase
  | AnimTask.setPosition b _ => b
  | AnimTask.move b _ => b
  | AnimTask.infiniteMove b _ => b
  | AnimTask.setRotation b => b
  | AnimTask.rotation b _ => b
  | AnimTask.infiniteRotate b => b
  | AnimTask.rotationAroundPoint b _ => b
  | AnimTask.infiniteRotateAroundPoint b => b
  | AnimTask.setSize b => b
  | AnimTask.sizeGrowth b _ => b

/-- Source `started()` of every concrete task class: the base condition
`__animation_started and __speed > 0`, conjoined with each override's extra
condition. -/
def AnimTask.started : AnimTask → Bool
  | AnimTask.setPosition b p => b.started && p
  | AnimTask.move b l => b.started && decide (0 < l)
  | AnimTask.infiniteMove b l => b.started && decide (0 < l)
  | AnimTask.setRotation b => b.started
  | AnimTask.rotation b a => b.started && decide (a ≠ 0)
  | AnimTask.infiniteRotate b => b.started
  | AnimTask.rotationAroundPoint b a => b.started && decide (a ≠ 0)
  | AnimTask.infiniteRotateAroundPoint b => b.started
  | AnimTask.setSize b => b.started
  | AnimTask.sizeGrowth b v => b.started && decide (v ≠ 0)

/-- The transformable state tracked in the C6 scenario: rotation angle and
center position (`Movable.center`, movable.py:179-187). -/
structure MovableState where
  angle : ℚ
  center : ℚ × ℚ
deriving DecidableEq, Repr

/-- Source `_AnimationSetPosition` (animation.py:395-422), with its `__position`
kwargs dict modelled as an optional target center (`some c` ↔ the dict is
`{"center": c}`, `none` ↔ the dict is empty). -/
structure SetPositionTask where
  base : AnimBase
  position : Option (ℚ × ℚ)
deriving DecidableEq, Repr

/-- Source `_AnimationSetPosition.started` (animation.py:403-404). -/
def SetPositionTask.started (t : SetPositionTask) : Bool :=
  t.base.started && t.position.isSome

/-- Source `_AnimationSetPosition.default` (animation.py:419-422): when the dict
is nonempty, `set_position(**position)` (cf. `Movable.set_position`,
movable.py:88-93) moves the transformable's center to the target, and the
dict is cleared. -/
def SetPositionTask.default (t : SetPositionTask) (m : MovableState) :
    SetPositionTask × MovableState :=
  match t.position with
  | some p => ({ t with position := Option.none }, { m with center := p })
  | Option.none => (t, m)

/-- Source `_AnimationInfiniteRotate` (animation.py:560-579). -/
structure InfiniteRotateTask where
  base : AnimBase
  orientation : ℤ
deriving DecidableEq, Repr

/-- Source `_AnimationInfiniteRotate` does not override `started`. -/
def InfiniteRotateTask.started (t : InfiniteRotateTask) : Bool :=
  t.base.started

/-- Source `_AnimationInfiniteRotate.fixed_update` (animation.py:573-576):
`transformable.rotate(speed * orientation)` — an in-place rotation updates
the angle and leaves the center untouched. -/
def InfiniteRotateTask.fixedUpdate (dt : ℚ) (t : InfiniteRotateTask)
    (m : MovableState) : InfiniteRotateTask × MovableState :=
  (t, { m with angle := m.angle + t.base.speed * dt * (t.orientation : ℚ) })

/-- A `TransformAnimation` whose `rotate` slot holds an
`_AnimationInfiniteRotate` and whose `move` slot an `_AnimationSetPosition`
(the `scale` and `rotate_point` slots empty); `__iter_animations` applies
the slots in the fixed order scale, rotate, rotate_point, move
(animation.py:144, 310-314). -/
structure RotateMoveAnimation where
  rotateTask : Option InfiniteRotateTask
  moveTask : Option SetPositionTask
  wait : Bool
deriving DecidableEq, Repr

/-- Source `TransformAnimation.has_animation_started` (animation.py:271-272) for
this slot population. -/
def RotateMoveAnimation.hasAnimationStarted (ta : RotateMoveAnimation) : Bool :=
  (match ta.rotateTask with
   | some r => r.started
   | Option.none => false) ||
  (match ta.moveTask with
   | some p => p.started
   | Option.none => false)

/-- Source `TransformAnimation.started` (animation.py:274-275). -/
def RotateMoveAnimation.started (ta : RotateMoveAnimation) : Bool :=
  !ta.wait && ta.hasAnimationStarted

/-- Source `TransformAnimation.fixed_update` (animation.py:250-264) for this slot
population: a no-op unless the set is started; otherwise the rotate task
and then the move task is stepped — `fixed_update()` if the task is
started, else `default()` (`_AnimationInfiniteRotate.default` is `pass`) —
and if no task remains started the dict is cleared and the set re-enters
the waiting state.  A *started* set-position task is never stepped in the
configurations studied here; its `fixed_update` needs the Euclidean norm,
which has no exact rational embedding, and only its (speed ≤ 0, hence
not-started) `default()` path is exercised by the claims. -/
def RotateMoveAnimation.fixedUpdate (dt : ℚ) (ta : RotateMoveAnimation)
    (m : MovableState) : RotateMoveAnimation × MovableState :=
  if ta.started then
    let rstep : Option InfiniteRotateTask × MovableState :=
      match ta.rotateTask with
      | some r =>
        if r.started then (some (r.fixedUpdate dt m).1, (r.fixedUpdate dt m).2)
        else (some r, m)
      | Option.none => (Option.none, m)
    let mstep : Option SetPositionTask × MovableState :=
      match ta.moveTask with
      | some p =>
        if p.started then (some p, rstep.2)
        else (some (p.default rstep.2).1, (p.default rstep.2).2)
      | Option.none => (Option.none, rstep.2)
    let ta₁ : RotateMoveAnimation :=
      { rotateTask := rstep.1, moveTask := mstep.1, wait := ta.wait }
    if ta₁.hasAnimationStarted then (ta₁, mstep.2)
    else ({ rotateTask := Option.none, moveTask := Option.none, wait := true }, mstep.2)
  else (ta, m)

/-- The transformable at the origin. -/
def c6_movable : MovableState := { angle := 0, center := (0, 0) }

/-- The C6 counterexample configuration: a started
`infinite_rotation(speed=60)` in the rotate slot together with a
`smooth_set_position(speed=0, center=(10, 20))` in the move slot, the set
started. -/
def c6_animation : RotateMoveAnimation :=
  { rotateTask := some { base := { animationStarted := true, speed := 60 }, orientation := 1 }
    moveTask := some { base := { animationStarted := true, speed := 0 }, position := some (10, 20) }
    wait := false }

/-! ## The `smooth_*` / `infinite_*` builders and the four task slots (C9) -/

/-- The `__animations` dict of `TransformAnimation`, keyed by the four slot
names `"scale"`, `"rotate"`, `"rotate_point"`, `"move"`
(animation.py:144-145); the freshly constructed task objects stored by the
builders are named by `ℕ`. -/
structure AnimationSlots where
  scale : Option ℕ
  rotate : Option ℕ
  rotate_point : Option ℕ
  move : Option ℕ
deriving DecidableEq, Repr

/-- Source `TransformAnimation.smooth_set_position` (animation.py:157-160). -/
def smooth_set_position (n : ℕ) (s : AnimationSlots) : AnimationSlots :=
  { s with move := some n }

/-- Source `TransformAnimation.smooth_translation` (animation.py:162-165). -/
def smooth_translation (n : ℕ) (s : AnimationSlots) : AnimationSlots :=
  { s with move := some n }

/-- Source `TransformAnimation.infinite_translation` (animation.py:167-170). -/
def infinite_translation (n : ℕ) (s : AnimationSlots) : AnimationSlots :=
  { s with move := some n }

/-- Source `TransformAnimation.smooth_set_angle` (animation.py:172-184):
`if pivot is not None: __animations.pop("rotate_point", None)`, then the
`rotate` slot is replaced. -/
def smooth_set_angle (pivotGiven : Bool) (n : ℕ) (s : AnimationSlots) : AnimationSlots :=
  { s with
    rotate_point := if pivotGiven then Option.none else s.rotate_point
    rotate := some n }

/-- Source `TransformAnimation.smooth_rotation` (animation.py:186-193). -/
def smooth_rotation (n : ℕ) (s : AnimationSlots) : AnimationSlots :=
  { s with rotate := some n }

/-- Source `TransformAnimation.smooth_rotation_around_point` (animation.py:195-207):
`if rotate_object: __animations.pop("rotate", None)`, then the
`rotate_point` slot is replaced. -/
def smooth_rotation_around_point (rotate_object : Bool) (n : ℕ)
    (s : AnimationSlots) : AnimationSlots :=
  { s with
    rotate := if rotate_object then Option.none else s.rotate
    rotate_point := some n }

/-- Source `TransformAnimation.infinite_rotation` (animation.py:209-212). -/
def infinite_rotation (n : ℕ) (s : AnimationSlots) : AnimationSlots :=
  { s with rotate := some n }

/-- Source `TransformAnimation.infinite_rotation_around_point`
(animation.py:214-228): `if rotate_object: __animations.pop("rotate", None)`,
then the `rotate_point` slot is replaced. -/
def infinite_rotation_around_point (rotate_object : Bool) (n : ℕ)
    (s : AnimationSlots) : AnimationSlots :=
  { s with
    rotate := if rotate_object then Option.none else s.rotate
    rotate_point := some n }

/-- Source `TransformAnimation.smooth_scale_to_width` (animation.py:230-233). -/
def smooth_scale_to_width (n : ℕ) (s : AnimationSlots) : AnimationSlots :=
  { s with scale := some n }

/-- Source `TransformAnimation.smooth_scale_to_height` (animation.py:235-238). -/
def smooth_scale_to_height (n : ℕ) (s : AnimationSlots) : AnimationSlots :=
  { s with scale := some n }

/-- Source `TransformAnimation.smooth_width_growth` (animation.py:240-243). -/
def smooth_width_growth (n : ℕ) (s : AnimationSlots) : AnimationSlots :=
  { s with scale := some n }

/-- Source `TransformAnimation.smooth_height_growth` (animation.py:245-248). -/
def smooth_height_growth (n : ℕ) (s : AnimationSlots) : AnimationSlots :=
  { s with scale := some n }

/-- All four slots occupied. -/
def c9_slots : AnimationSlots :=
  { scale := some 1, rotate := some 2, rotate_point := some 3, move := some 4 }

/-! ## Per-transformable instance caches (C10) -/

/-- The class-level `__cache : WeakKeyDictionary[Transformable, _]` of
`AnimationInterpolator` (animation.py:42) and `TransformAnimation`
(animation.py:132), as an association list transformable-id ↦ instance-id,
together with a counter allocating ids for freshly created instances. -/
structure NewCacheState where
  cache : List (ℕ × ℕ)
  nextId : ℕ
deriving DecidableEq, Repr

/-- Source `AnimationInterpolator.__new__` (animation.py:44-50) and
`TransformAnimation.__new__` (animation.py:134-140), which share this exact
logic: look the transformable up in the class cache; on a hit return the
cached instance, otherwise create a fresh instance, store it under the
transformable, and return it. -/
def cached_new (s : NewCacheState) (t : ℕ) : NewCacheState × ℕ :=
  match s.cache.lookup t with
  | some i => (s, i)
  | Option.none =>
    ({ cache := (t, s.nextId) :: s.cache, nextId := s.nextId + 1 }, s.nextId)

/-! ## Theorems -/

theorem fixed_updates_call_nonloop (dt accumulator : ℚ) (h : ¬(0 < dt ∧ dt ≤ accumulator)) :
    fixed_updates_call dt accumulator = (0, accumulator) := by
  rw [fixed_updates_call]
  exact dif_neg h

theorem fixed_updates_call_loop (dt accumulator : ℚ) (h : 0 < dt ∧ dt ≤ accumulator) :
    fixed_updates_call dt accumulator =
      ((fixed_updates_call dt (accumulator - dt)).1 + 1,
       (fixed_updates_call dt (accumulator - dt)).2) := by
  rw [fixed_updates_call]
  exact dif_pos h

theorem fixed_updates_call_spec_aux (dt : ℚ) (hdt : 0 < dt) :
    ∀ (n : ℕ) (acc : ℚ), (⌊acc / dt⌋).toNat ≤ n → 0 ≤ acc →
      (fixed_updates_call dt acc).1 = (⌊acc / dt⌋).toNat ∧
      (fixed_updates_call dt acc).2 = acc - ⌊acc / dt⌋ * dt ∧
      0 ≤ (fixed_updates_call dt acc).2 ∧
      (fixed_updates_call dt acc).2 < dt := by
  intro n
  induction n with
  | zero =>
    intro acc hn hacc
    have hlt : acc < dt := by
      by_contra hge
      push_neg at hge
      have h2 : (1 : ℤ) ≤ ⌊acc / dt⌋ := by
        rw [Int.le_floor]
        push_cast
        rw [le_div_iff₀ hdt]
        linarith
      omega
    have hfl : ⌊acc / dt⌋ = 0 := by
      rw [Int.floor_eq_zero_iff]
      constructor
      · exact div_nonneg hacc (le_of_lt hdt)
      · rw [div_lt_one hdt]
        exact hlt
    rw [fixed_updates_call_nonloop dt acc (by push_neg; intro _; exact hlt)]
    refine ⟨by simp [hfl], by simp [hfl], hacc, hlt⟩
  | succ n ih =>
    intro acc hn hacc
    by_cases hle : dt ≤ acc
    · have hq : (acc - dt) / dt = acc / dt - 1 := by
        rw [sub_div, div_self (ne_of_gt hdt)]
      have h1 : ⌊acc / dt - (1 : ℚ)⌋ = ⌊acc / dt⌋ - 1 := by
        exact_mod_cast Int.floor_sub_int (acc / dt) 1
      have h2 : (1 : ℤ) ≤ ⌊acc / dt⌋ := by
        rw [Int.le_floor]
        push_cast
        rw [le_div_iff₀ hdt]
        linarith
      have hq' : ⌊(acc - dt) / dt⌋ = ⌊acc / dt⌋ - 1 := by rw [hq, h1]
      have hrec := ih (acc - dt) (by rw [hq']; omega) (by linarith)
      rw [fixed_updates_call_loop dt acc ⟨hdt, hle⟩]
      obtain ⟨hc, hl, hnn, hlt⟩ := hrec
      refine ⟨?_, ?_, hnn, hlt⟩
      · simp only [hc, hq']
        omega
      · simp only [hl, hq']
        push_cast
        ring
    · push_neg at hle
      have hfl : ⌊acc / dt⌋ = 0 := by
        rw [Int.floor_eq_zero_iff]
        constructor
        · exact div_nonneg hacc (le_of_lt hdt)
        · rw [div_lt_one hdt]
          exact hle
      rw [fixed_updates_call_nonloop dt acc (by push_neg; intro _; exact hle)]
      refine ⟨by simp [hfl], by simp [hfl], hacc, hle⟩

/-- C1: each frame, after `refresh()` adds
`min(real_delta_time/1000, 2*fixed_delta)` to the accumulator, the
fixed-update pass (`_fixed_updates_call`) invokes the callbacks exactly
`floor(accumulator / fixed_delta)` times, subtracting `fixed_delta` per
iteration; the leftover accumulator equals
`accumulator - floor(accumulator/fixed_delta) * fixed_delta`, is `≥ 0` and
`< fixed_delta`, and is the value carried to the next frame. -/
theorem clock_fixed_update_pass_spec
    (fixed_delta accumulator real_delta_time : ℚ)
    (hdt : 0 < fixed_delta) (hacc : 0 ≤ accumulator) (hrdt : 0 ≤ real_delta_time) :
    (fixed_updates_call fixed_delta
        (refresh_accumulator accumulator real_delta_time fixed_delta)).1 =
      (⌊refresh_accumulator accumulator real_delta_time fixed_delta / fixed_delta⌋).toNat ∧
    (fixed_updates_call fixed_delta
        (refresh_accumulator accumulator real_delta_time fixed_delta)).2 =
      refresh_accumulator accumulator real_delta_time fixed_delta -
        ⌊refresh_accumulator accumulator real_delta_time fixed_delta / fixed_delta⌋ * fixed_delta ∧
    0 ≤ (fixed_updates_call fixed_delta
        (refresh_accumulator accumulator real_delta_time fixed_delta)).2 ∧
    (fixed_updates_call fixed_delta
        (refresh_accumulator accumulator real_delta_time fixed_delta)).2 < fixed_delta := by
  apply fixed_updates_call_spec_aux fixed_delta hdt
      ((⌊refresh_accumulator accumulator real_delta_time fixed_delta / fixed_delta⌋).toNat)
  · exact le_refl _
  · unfold refresh_accumulator
    have h1 : (0 : ℚ) ≤ real_delta_time / 1000 := by positivity
    have h2 : (0 : ℚ) ≤ 2 * fixed_delta := by positivity
    have := le_min h1 h2
    linarith

/-- Witness for C1 at `fixed_delta = 2`, `accumulator = 1`,
`real_delta_time = 9000`: the refreshed accumulator is `1 + min(9, 4) = 5`,
the pass runs `⌊5/2⌋ = 2` times and the leftover is `1 ∈ [0, 2)`. -/
theorem clock_fixed_update_pass_spec_witness :
    ((0 : ℚ) < 2 ∧ (0 : ℚ) ≤ 1 ∧ (0 : ℚ) ≤ 9000) ∧
    ((fixed_updates_call 2 (refresh_accumulator 1 9000 2)).1 =
        (⌊refresh_accumulator 1 9000 2 / 2⌋).toNat ∧
      (fixed_updates_call 2 (refresh_accumulator 1 9000 2)).2 =
        refresh_accumulator 1 9000 2 -
          ⌊refresh_accumulator 1 9000 2 / 2⌋ * 2 ∧
      0 ≤ (fixed_updates_call 2 (refresh_accumulator 1 9000 2)).2 ∧
      (fixed_updates_call 2 (refresh_accumulator 1 9000 2)).2 < 2) :=
  ⟨⟨by decide, by decide, by decide⟩,
    clock_fixed_update_pass_spec 2 1 9000 (by decide) (by decide) (by decide)⟩

theorem popUntil_stack_suffix (kind actual : ℕ) :
    ∀ (stack : List ℕ) (returning : List (ℕ × ℕ)),
      (popUntil kind actual stack returning).1 <:+ stack := by
  intro stack
  induction stack with
  | nil => intro returning; simp [popUntil]
  | cons h t ih =>
    intro returning
    by_cases hk : h = kind
    · simp [popUntil, hk]
    · simp only [popUntil, if_neg hk]
      exact (ih _).trans (List.suffix_cons h t)

theorem go_to_stack_nodup (s : ManagerState) (kind : ℕ) (transition : TransitionArg)
    (remove_actual : Bool) (hs : s.stack.Nodup) :
    (go_to s kind transition remove_actual).state.stack.Nodup := by
  unfold go_to
  match hstack : s.stack with
  | [] => simp [GoToResult.state]
  | a :: rest =>
    by_cases hak : a = kind
    · simp only [if_pos hak, GoToResult.state]
      exact hs
    · rw [hstack] at hs
      by_cases hmem : kind ∈ a :: rest
      · simp only [if_neg hak, hmem, not_true_eq_false, if_false, GoToResult.state]
        exact ((popUntil_stack_suffix kind a (a :: rest) _).sublist).nodup hs
      · simp only [if_neg hak, hmem, not_false_eq_true, if_true, GoToResult.state]
        have hpush : (kind :: a :: rest).Nodup := by
          refine List.nodup_cons.mpr ⟨hmem, hs⟩
        by_cases hra : remove_actual
        · simp only [hra, if_true]
          exact hpush.erase a
        · simp only [hra, if_false]
          exact hpush

/-- C2: for any sequence of `go_to` calls starting from the empty stack, the
scene stack never contains two entries of the same scene kind
(`List.Nodup`); stack entries are identified with their kinds because the
manager holds a single instance per kind (`Scene.__new__` forbids a
second). -/
theorem go_to_sequence_stack_nodup (ops : List GoToOp) :
    (run_go_to_sequence ops).stack.Nodup := by
  have H : ∀ (l : List GoToOp) (s : ManagerState), s.stack.Nodup →
      (l.foldl apply_go_to s).stack.Nodup := by
    intro l
    induction l with
    | nil => intro s hs; exact hs
    | cons op t ih =>
      intro s hs
      exact ih _ (go_to_stack_nodup s op.1 op.2.1 op.2.2 hs)
  exact H ops initialManagerState (by simp [initialManagerState])

/-- C3: if `go_to(kind)` is called while `kind` is already the active
(front) scene, it raises `SameScene`, leaves the whole manager state (stack,
awaken set, stored returning transitions) unchanged, and invokes no
lifecycle hook. -/
theorem go_to_same_scene (s : ManagerState) (kind : ℕ) (transition : TransitionArg)
    (remove_actual : Bool) (h : s.stack.head? = some kind) :
    go_to s kind transition remove_actual = GoToResult.sameScene s [] := by
  unfold go_to
  match hstack : s.stack with
  | [] => rw [hstack] at h; simp at h
  | a :: rest =>
    rw [hstack] at h
    simp only [List.head?_cons, Option.some.injEq] at h
    simp [h]

/-- Witness for C3: stack `[7, 3]` with active scene `7`; `go_to 7` raises
`SameScene` with the state untouched and no hook invoked. -/
theorem go_to_same_scene_witness :
    (ManagerState.mk [7, 3] [7, 3] [(3, 1)]).stack.head? = some 7 ∧
    go_to (ManagerState.mk [7, 3] [7, 3] [(3, 1)]) 7 (TransitionArg.normal 5) true =
      GoToResult.sameScene (ManagerState.mk [7, 3] [7, 3] [(3, 1)]) [] :=
  ⟨rfl, go_to_same_scene (ManagerState.mk [7, 3] [7, 3] [(3, 1)]) 7
    (TransitionArg.normal 5) true rfl⟩

/-- Counterexample to C4: an exception outside the `_SceneManager.SceneException`
family (e.g. a `ValueError` raised inside the active scene's `update()` or
`render()`) is not caught by the loop: it propagates and the loop terminates,
rather than being logged and continuing with the next frame. -/
theorem run_loop_step_other_exception_propagates :
    run_loop_step FrameOutcome.otherException = LoopAction.propagate ∧
    run_loop_step FrameOutcome.otherException ≠ LoopAction.continueLoop true ∧
    run_loop_step FrameOutcome.otherException ≠ LoopAction.continueLoop false := by
  refine ⟨rfl, ?_, ?_⟩ <;> intro h <;> simp [run_loop_step] at h

/-- C4 (amended): an exception of the `_SceneManager.SceneException` family
(other than `NewScene`, e.g. `SameScene`) raised inside the frame body is
caught by the loop, logged to stderr, and the loop continues with the next
frame. -/
theorem run_loop_step_scene_exception_continues :
    run_loop_step FrameOutcome.sceneException = LoopAction.continueLoop true := rfl

theorem pymod_eq_fract (x y : ℚ) (hy : y ≠ 0) :
    pymod x y = y * Int.fract (x / y) := by
  unfold pymod Int.fract
  field_simp

theorem pymod_nonneg (x y : ℚ) (hy : 0 < y) : 0 ≤ pymod x y := by
  rw [pymod_eq_fract x y (ne_of_gt hy)]
  exact mul_nonneg (le_of_lt hy) (Int.fract_nonneg _)

theorem pymod_lt (x y : ℚ) (hy : 0 < y) : pymod x y < y := by
  rw [pymod_eq_fract x y (ne_of_gt hy)]
  calc y * Int.fract (x / y) < y * 1 :=
        (mul_lt_mul_left hy).mpr (Int.fract_lt_one _)
    _ = y := mul_one y

theorem pymod_eq_self (x y : ℚ) (h0 : 0 ≤ x) (h1 : x < y) : pymod x y = x := by
  have hy : 0 < y := lt_of_le_of_lt h0 h1
  have : ⌊x / y⌋ = 0 := by
    rw [Int.floor_eq_zero_iff]
    exact ⟨div_nonneg h0 (le_of_lt hy), by rw [div_lt_one hy]; exact h1⟩
  simp [pymod, this]

theorem pymod_idem (x y : ℚ) (hy : 0 < y) : pymod (pymod x y) y = pymod x y :=
  pymod_eq_self _ _ (pymod_nonneg x y hy) (pymod_lt x y hy)

theorem pymod_sub_int_mul (x y : ℚ) (k : ℤ) (hy : y ≠ 0) :
    pymod (x - y * k) y = pymod x y := by
  unfold pymod
  have hq : (x - y * k) / y = x / y - k := by
    field_simp
  rw [hq, Int.floor_sub_int]
  push_cast
  ring

/-- C7: for every pair of start and end angles and every `alpha ∈ [0, 1]`,
the rotation-interpolation step `((end - start) + 180) % 360 - 180` scaled
by `alpha` changes the angle by at most 180 degrees in either direction. -/
theorem angle_interpolation_step_bounded (startAngle endAngle alpha : ℚ)
    (h0 : 0 ≤ alpha) (h1 : alpha ≤ 1) :
    |angle_interpolation_delta startAngle endAngle alpha| ≤ 180 := by
  unfold angle_interpolation_delta
  have hnn := pymod_nonneg ((endAngle - startAngle) + 180) 360 (by norm_num)
  have hlt := pymod_lt ((endAngle - startAngle) + 180) 360 (by norm_num)
  rw [abs_mul]
  have hs : |pymod ((endAngle - startAngle) + 180) 360 - 180| ≤ 180 := by
    rw [abs_le]
    constructor <;> linarith
  have ha : |alpha| ≤ 1 := by
    rw [abs_le]
    exact ⟨by linarith, h1⟩
  calc |pymod ((endAngle - startAngle) + 180) 360 - 180| * |alpha|
      ≤ 180 * 1 := by
        apply mul_le_mul hs ha (abs_nonneg _)
        norm_num
    _ = 180 := by norm_num

/-- Witness for C7 at `start = 0`, `end = 350`, `alpha = 1`. -/
theorem angle_interpolation_step_bounded_witness :
    ((0 : ℚ) ≤ 1 ∧ (1 : ℚ) ≤ 1) ∧
    |angle_interpolation_delta 0 350 1| ≤ 180 :=
  ⟨⟨by decide, by decide⟩,
    angle_interpolation_step_bounded 0 350 1 (by decide) (by decide)⟩

/-- C8: interpolating two transform snapshots with `alpha = 0` reproduces
the previous snapshot's scale, position and angle (the angle modulo 360)
exactly, and with `alpha = 1` reproduces the actual snapshot's scale,
position and angle (modulo 360) exactly. -/
theorem interpolate_endpoints (prev act : TransformState) :
    ((prev.interpolate act 0).scale = prev.scale ∧
     (prev.interpolate act 0).center = prev.center ∧
     pymod (prev.interpolate act 0).angle 360 = pymod prev.angle 360) ∧
    ((prev.interpolate act 1).scale = act.scale ∧
     (prev.interpolate act 1).center = act.center ∧
     pymod (prev.interpolate act 1).angle 360 = pymod act.angle 360) := by
  constructor
  · refine ⟨?_, ?_, ?_⟩
    · simp [TransformState.interpolate, linear_interpolation]
    · simp [TransformState.interpolate, lerp]
    · have h : (prev.interpolate act 0).angle = pymod prev.angle 360 := by
        simp [TransformState.interpolate, angle_interpolation, angle_interpolation_delta]
      rw [h, pymod_idem _ _ (by norm_num)]
  · refine ⟨?_, ?_, ?_⟩
    · simp [TransformState.interpolate, linear_interpolation]
    · simp only [TransformState.interpolate, lerp]
      refine Prod.ext ?_ ?_ <;> simp
    · have h : (prev.interpolate act 1).angle =
          pymod (act.angle - 360 * ⌊(act.angle - prev.angle + 180) / 360⌋) 360 := by
        simp only [TransformState.interpolate, angle_interpolation,
          angle_interpolation_delta, pymod, mul_one]
        ring_nf
      rw [h, pymod_sub_int_mul _ _ _ (by norm_num), pymod_idem _ _ (by norm_num)]

theorem runTicks_add (dt : ℚ) (a b : ℕ) (ta : RotationOnlyAnimation) :
    runTicks dt (a + b) ta =
      ((runTicks dt b (runTicks dt a ta).1).1,
       (runTicks dt a ta).2.1 + (runTicks dt b (runTicks dt a ta).1).2.1,
       (runTicks dt a ta).2.2 + (runTicks dt b (runTicks dt a ta).1).2.2) := by
  induction a generalizing ta with
  | zero => simp [runTicks]
  | succ n ih =>
    have hsucc : n + 1 + b = (n + b) + 1 := by omega
    rw [hsucc]
    simp only [runTicks, ih]
    simp [add_assoc]

theorem runTicks_one (dt : ℚ) (ta : RotationOnlyAnimation) :
    runTicks dt 1 ta = ta.fixedUpdate dt := by
  simp [runTicks]

theorem runTicks_not_started (dt : ℚ) (n : ℕ) (ta : RotationOnlyAnimation)
    (h : ta.started = false) : runTicks dt n ta = (ta, 0, 0) := by
  induction n with
  | zero => rfl
  | succ m ih =>
    have hstep : ta.fixedUpdate dt = (ta, 0, 0) := by
      unfold RotationOnlyAnimation.fixedUpdate
      rw [h]
      rfl
    simp [runTicks, hstep, ih]

theorem c5_init_eq : AnimationRotation.init 90 180 = c5_taskAt 0 := by
  unfold AnimationRotation.init c5_taskAt
  norm_num

theorem c5_taskAt_started (k : ℕ) : (c5_taskAt k).started = true := by
  simp [c5_taskAt, AnimationRotation.started, AnimBase.started]

theorem c5_task_tick (k : ℕ) (hk : k ≤ 29) :
    AnimationRotation.fixedUpdate (1/60) (c5_taskAt k) = (c5_taskAt (k + 1), 3) := by
  have hkq : (k : ℚ) ≤ 29 := by exact_mod_cast hk
  have hmin : min ((90 : ℚ) - 3 * k) (180 * (1/60)) = 3 := by
    rw [show (180 : ℚ) * (1/60) = 3 by norm_num]
    apply min_eq_right
    linarith
  unfold AnimationRotation.fixedUpdate c5_taskAt
  simp only [hmin, Int.cast_one, mul_one]
  rw [if_neg (by norm_num)]
  simp only [Prod.mk.injEq, AnimationRotation.mk.injEq, and_true, true_and]
  rw [abs_of_pos (by norm_num : (0:ℚ) < 3)]
  push_cast
  ring

theorem c5_task_tick_stop :
    AnimationRotation.fixedUpdate (1/60) (c5_taskAt 30) =
      ({ base := { animationStarted := false, speed := 0 }
         angle := 0
         orientation := 1
         actualAngle := 90 }, 0) := by
  have hmin : min ((90 : ℚ) - 3 * (30 : ℕ)) (180 * (1/60)) = 0 := by
    rw [min_def]
    norm_num
  unfold AnimationRotation.fixedUpdate c5_taskAt
  simp only [hmin, Int.cast_one, mul_one]
  rw [if_pos (by norm_num)]
  unfold AnimationRotation.stop AnimationRotation.default AnimBase.stopBase
  norm_num

theorem c5_set_tick (k : ℕ) (hk : k ≤ 29) :
    RotationOnlyAnimation.fixedUpdate (1/60)
        { rotateTask := some (c5_taskAt k), wait := false, onStop := true } =
      ({ rotateTask := some (c5_taskAt (k + 1)), wait := false, onStop := true }, 3, 0) := by
  unfold RotationOnlyAnimation.fixedUpdate
  simp only [RotationOnlyAnimation.started, RotationOnlyAnimation.hasAnimationStarted,
    c5_taskAt_started, c5_task_tick k hk, Bool.not_false, Bool.true_and, if_true]

theorem c5_set_tick_stop :
    RotationOnlyAnimation.fixedUpdate (1/60)
        { rotateTask := some (c5_taskAt 30), wait := false, onStop := true } =
      ({ rotateTask := Option.none, wait := true, onStop := false }, 0, 1) := by
  unfold RotationOnlyAnimation.fixedUpdate
  simp only [RotationOnlyAnimation.started, RotationOnlyAnimation.hasAnimationStarted,
    c5_taskAt_started, c5_task_tick_stop, Bool.not_false, Bool.true_and, if_true]
  simp [AnimationRotation.started, AnimBase.started]

theorem c5_runTicks (k : ℕ) (hk : k ≤ 30) :
    runTicks (1/60) k c5_animation =
      ({ rotateTask := some (c5_taskAt k), wait := false, onStop := true },
       3 * (k : ℚ), 0) := by
  induction k with
  | zero =>
    simp [runTicks, c5_animation, c5_init_eq]
  | succ m ih =>
    have hm : m ≤ 30 := by omega
    have hm29 : m ≤ 29 := by omega
    rw [runTicks_add (1/60) m 1 c5_animation, ih hm]
    simp only [runTicks_one, c5_set_tick m hm29, Prod.mk.injEq]
    refine ⟨trivial, ?_, trivial⟩
    push_cast
    ring

theorem c5_runTicks_31 :
    runTicks (1/60) 31 c5_animation =
      ({ rotateTask := Option.none, wait := true, onStop := false }, 90, 1) := by
  rw [show (31 : ℕ) = 30 + 1 from rfl, runTicks_add (1/60) 30 1 c5_animation,
    c5_runTicks 30 (by omega)]
  simp only [runTicks_one, c5_set_tick_stop, Prod.mk.injEq]
  refine ⟨trivial, by norm_num, trivial⟩

/-- Counterexample to C5: with `smooth_rotation(90, speed=180)` and
`fixed_delta = 1/60`, the accumulated rotation reaches exactly 90° on tick
`⌈90 / (180/60)⌉ = 30`, but the stop callback has not fired by then — the
firing count after 30 ticks is still 0 (it fires on tick 31, the first tick
on which the task computes a zero offset and stops). -/
theorem smooth_rotation_stop_tick_counterexample :
    (runTicks (1/60) 30 c5_animation).2.1 = 90 ∧
    (runTicks (1/60) 30 c5_animation).2.2 = 0 ∧
    (runTicks (1/60) 31 c5_animation).2.2 = 1 := by
  rw [c5_runTicks 30 (by omega), c5_runTicks_31]
  norm_num

/-- C5 (amended): `smooth_rotation(90, speed=180)` at `fixed_delta = 1/60`
reaches an accumulated rotation of exactly 90° after
`⌈90 / (180/60)⌉ = 30` fixed ticks, and its stop callback fires exactly
once, on tick 31 — the tick after the one on which the rotation completes,
when the task first computes a zero remaining offset and stops: the firing
count after `n` ticks is `0` for `n ≤ 30` and `1` for every `n ≥ 31`. -/
theorem smooth_rotation_spec (n : ℕ) :
    (runTicks (1/60) 30 c5_animation).2.1 = 90 ∧
    (runTicks (1/60) n c5_animation).2.2 = if n ≤ 30 then 0 else 1 := by
  constructor
  · rw [c5_runTicks 30 (by omega)]
    norm_num
  · by_cases h : n ≤ 30
    · rw [if_pos h, c5_runTicks n h]
    · rw [if_neg h]
      have hsplit := runTicks_add (1/60) 31 (n - 31) c5_animation
      rw [show 31 + (n - 31) = n from by omega] at hsplit
      have hrest := runTicks_not_started (1/60) (n - 31)
        { rotateTask := Option.none, wait := true, onStop := false } rfl
      rw [hsplit, c5_runTicks_31]
      simp only [hrest]

/-- Counterexample to C6: the speed-0 set-position task reports
`started() = false`, yet stepping the owning animation set mutates the
transformable: the started rotate task keeps the set running, so the
non-started move task's `default()` is invoked, which snaps the center from
`(0, 0)` to its target `(10, 20)`. -/
theorem speed_zero_task_mutation_counterexample :
    c6_animation.moveTask =
      some { base := { animationStarted := true, speed := 0 }, position := some (10, 20) } ∧
    SetPositionTask.started
      { base := { animationStarted := true, speed := 0 }, position := some (10, 20) } = false ∧
    (RotateMoveAnimation.fixedUpdate (1/60) c6_animation c6_movable).2.center = (10, 20) ∧
    c6_movable.center = (0, 0) := by
  refine ⟨rfl, ?_, ?_, rfl⟩
  · simp [SetPositionTask.started, AnimBase.started]
  · norm_num [RotateMoveAnimation.fixedUpdate, RotateMoveAnimation.started,
      RotateMoveAnimation.hasAnimationStarted, c6_animation, c6_movable,
      InfiniteRotateTask.started, SetPositionTask.started, SetPositionTask.default,
      InfiniteRotateTask.fixedUpdate, AnimBase.started]

/-- C6 (amended): every animation task kind constructed with `speed ≤ 0`
reports `started() = false`; consequently an animation set all of whose
tasks have `speed ≤ 0` is not started, and stepping it performs no mutation
of the transformable (and none of the set's state).  When another started
task keeps the set running, however, a non-started task is "stepped" via
its `default()`, which may mutate the transformable — see the
counterexample. -/
theorem speed_nonpos_task_spec :
    (∀ t : AnimTask, t.getBase.speed ≤ 0 → t.started = false) ∧
    (∀ (dt : ℚ) (ta : RotateMoveAnimation) (m : MovableState),
      (∀ r, ta.rotateTask = some r → r.base.speed ≤ 0) →
      (∀ p, ta.moveTask = some p → p.base.speed ≤ 0) →
      RotateMoveAnimation.fixedUpdate dt ta m = (ta, m)) := by
  constructor
  · intro t ht
    have hs : ¬ (0 < t.getBase.speed) := not_lt.mpr ht
    cases t <;> simp_all [AnimTask.started, AnimTask.getBase, AnimBase.started]
  · intro dt ta m hr hp
    have h1 : (match ta.rotateTask with
        | some r => r.started
        | Option.none => false) = false := by
      cases hR : ta.rotateTask with
      | none => rfl
      | some r =>
        have := hr r hR
        simp [InfiniteRotateTask.started, AnimBase.started, not_lt.mpr this]
    have h2 : (match ta.moveTask with
        | some p => p.started
        | Option.none => false) = false := by
      cases hM : ta.moveTask with
      | none => rfl
      | some p =>
        have := hp p hM
        simp [SetPositionTask.started, AnimBase.started, not_lt.mpr this]
    have hstart : ta.started = false := by
      unfold RotateMoveAnimation.started RotateMoveAnimation.hasAnimationStarted
      rw [h1, h2]
      simp
    unfold RotateMoveAnimation.fixedUpdate
    simp [hstart]

/-- Witness for C6 (amended): a concrete speed-0 rotation task is not
started, and a set holding only a speed-0 set-position task leaves the
transformable (and itself) unchanged when stepped. -/
theorem speed_nonpos_task_spec_witness :
    ((AnimTask.rotation { animationStarted := true, speed := 0 } 90).getBase.speed ≤ 0 ∧
     (AnimTask.rotation { animationStarted := true, speed := 0 } 90).started = false) ∧
    RotateMoveAnimation.fixedUpdate (1/60)
        { rotateTask := Option.none
          moveTask := some { base := { animationStarted := true, speed := 0 }
                             position := some (5, 5) }
          wait := false }
        { angle := 0, center := (0, 0) } =
      ({ rotateTask := Option.none
         moveTask := some { base := { animationStarted := true, speed := 0 }
                            position := some (5, 5) }
         wait := false },
       { angle := 0, center := (0, 0) }) :=
  ⟨⟨by decide,
    speed_nonpos_task_spec.1
      (AnimTask.rotation { animationStarted := true, speed := 0 } 90) (by decide)⟩,
   speed_nonpos_task_spec.2 (1/60)
     { rotateTask := Option.none
       moveTask := some { base := { animationStarted := true, speed := 0 }
                          position := some (5, 5) }
       wait := false }
     { angle := 0, center := (0, 0) }
     (fun r hr => nomatch hr)
     (fun p hp => by injection hp with hp; rw [← hp])⟩

/-- Counterexample to C9: three builders touch a slot other than their own.
`smooth_set_angle` with a pivot empties the `rotate_point` slot, and
`smooth_rotation_around_point` / `infinite_rotation_around_point` with
`rotate_object=True` empty the `rotate` slot. -/
theorem builder_cross_slot_counterexample :
    (smooth_set_angle true 5 c9_slots).rotate_point = Option.none ∧
    c9_slots.rotate_point = some 3 ∧
    (smooth_rotation_around_point true 5 c9_slots).rotate = Option.none ∧
    (infinite_rotation_around_point true 5 c9_slots).rotate = Option.none ∧
    c9_slots.rotate = some 2 :=
  ⟨rfl, rfl, rfl, rfl, rfl⟩

/-- C9 (amended): every `smooth_*`/`infinite_*` builder replaces the task in
its own slot and leaves the other slots unchanged, except that
`smooth_set_angle` with a pivot also empties the `rotate_point` slot and
`smooth_rotation_around_point` / `infinite_rotation_around_point` with
`rotate_object=True` also empty the `rotate` slot. -/
theorem builder_slot_effects (s : AnimationSlots) (n : ℕ) (b : Bool) :
    ((smooth_set_position n s).scale = s.scale ∧
     (smooth_set_position n s).rotate = s.rotate ∧
     (smooth_set_position n s).rotate_point = s.rotate_point ∧
     (smooth_set_position n s).move = some n) ∧
    ((smooth_translation n s).scale = s.scale ∧
     (smooth_translation n s).rotate = s.rotate ∧
     (smooth_translation n s).rotate_point = s.rotate_point ∧
     (smooth_translation n s).move = some n) ∧
    ((infinite_translation n s).scale = s.scale ∧
     (infinite_translation n s).rotate = s.rotate ∧
     (infinite_translation n s).rotate_point = s.rotate_point ∧
     (infinite_translation n s).move = some n) ∧
    ((smooth_rotation n s).scale = s.scale ∧
     (smooth_rotation n s).rotate_point = s.rotate_point ∧
     (smooth_rotation n s).move = s.move ∧
     (smooth_rotation n s).rotate = some n) ∧
    ((infinite_rotation n s).scale = s.scale ∧
     (infinite_rotation n s).rotate_point = s.rotate_point ∧
     (infinite_rotation n s).move = s.move ∧
     (infinite_rotation n s).rotate = some n) ∧
    ((smooth_scale_to_width n s).rotate = s.rotate ∧
     (smooth_scale_to_width n s).rotate_point = s.rotate_point ∧
     (smooth_scale_to_width n s).move = s.move ∧
     (smooth_scale_to_width n s).scale = some n) ∧
    ((smooth_scale_to_height n s).rotate = s.rotate ∧
     (smooth_scale_to_height n s).rotate_point = s.rotate_point ∧
     (smooth_scale_to_height n s).move = s.move ∧
     (smooth_scale_to_height n s).scale = some n) ∧
    ((smooth_width_growth n s).rotate = s.rotate ∧
     (smooth_width_growth n s).rotate_point = s.rotate_point ∧
     (smooth_width_growth n s).move = s.move ∧
     (smooth_width_growth n s).scale = some n) ∧
    ((smooth_height_growth n s).rotate = s.rotate ∧
     (smooth_height_growth n s).rotate_point = s.rotate_point ∧
     (smooth_height_growth n s).move = s.move ∧
     (smooth_height_growth n s).scale = some n) ∧
    ((smooth_set_angle b n s).scale = s.scale ∧
     (smooth_set_angle b n s).move = s.move ∧
     (smooth_set_angle b n s).rotate = some n ∧
     (smooth_set_angle b n s).rotate_point =
       (if b then Option.none else s.rotate_point)) ∧
    ((smooth_rotation_around_point b n s).scale = s.scale ∧
     (smooth_rotation_around_point b n s).move = s.move ∧
     (smooth_rotation_around_point b n s).rotate_point = some n ∧
     (smooth_rotation_around_point b n s).rotate =
       (if b then Option.none else s.rotate)) ∧
    ((infinite_rotation_around_point b n s).scale = s.scale ∧
     (infinite_rotation_around_point b n s).move = s.move ∧
     (infinite_rotation_around_point b n s).rotate_point = some n ∧
     (infinite_rotation_around_point b n s).rotate =
       (if b then Option.none else s.rotate)) :=
  ⟨⟨rfl, rfl, rfl, rfl⟩, ⟨rfl, rfl, rfl, rfl⟩, ⟨rfl, rfl, rfl, rfl⟩,
   ⟨rfl, rfl, rfl, rfl⟩, ⟨rfl, rfl, rfl, rfl⟩, ⟨rfl, rfl, rfl, rfl⟩,
   ⟨rfl, rfl, rfl, rfl⟩, ⟨rfl, rfl, rfl, rfl⟩, ⟨rfl, rfl, rfl, rfl⟩,
   ⟨rfl, rfl, rfl, rfl⟩, ⟨rfl, rfl, rfl, rfl⟩, ⟨rfl, rfl, rfl, rfl⟩⟩

/-- C10: constructing `AnimationInterpolator(t)` or `TransformAnimation(t)`
again for the same transformable `t` returns the identical cached instance
and leaves the cache unchanged — construction is idempotent, so at most one
interpolator and one animation set per object exist at a time. -/
theorem cached_new_idempotent (s : NewCacheState) (t : ℕ) :
    cached_new (cached_new s t).1 t = cached_new s t := by
  unfold cached_new
  cases h : s.cache.lookup t with
  | some i => simp [h]
  | none => simp [h, List.lookup]

end PyDiamond
